import Mathlib

/-!
Verification development for the perfect-move property-search frontend and
its natural-language search core.

The data model follows `frontend/src/types/property.ts`; the interactive
filter logic follows `frontend/src/components/AdvancedFilters.tsx` and
`frontend/src/components/SearchBar.tsx`.  The natural-language parse /
suggest core (`backend/app/modules/search/nlp_service.py`) is not part of
the checked-out sources, so it is modelled from the specification
(`spec.md`), as marked on each definition.

Numbers are modelled as `ℚ` where the TypeScript / Python code uses
floating point `number` (prices, distances, scores); counts use `Nat`.
-/

namespace PerfectMove

/-- From `frontend/src/types/property.ts` (`ProximityFilter`): an amenity
proximity constraint.  `amenity_type` is one of the fixed amenity
vocabulary strings; `distance_unit` is "meters", "kilometers" or
"miles". -/
structure ProximityFilter where
  amenity_type : String
  max_distance : ℚ
  distance_unit : String
  walking_distance : Bool
deriving Repr, DecidableEq

/-- From `frontend/src/types/property.ts` (`EnvironmentalFilter`). -/
structure EnvironmentalFilter where
  max_air_pollution_level : Option ℚ
  max_noise_level : Option ℚ
  avoid_flood_risk : Bool
  min_green_space_proximity : Option ℚ
deriving Repr, DecidableEq

/-- From `frontend/src/types/property.ts` (`CommuteFilter`). -/
structure CommuteFilter where
  destination_address : String
  max_commute_minutes : Nat
  transport_modes : List String
deriving Repr, DecidableEq

/-- From `frontend/src/types/property.ts` (`SearchCriteria`): the output
contract of the parser and the state edited by the advanced-filter UI.
Optional TypeScript fields become `Option`. -/
structure SearchCriteria where
  min_price : Option ℚ
  max_price : Option ℚ
  property_types : List String
  status : List String
  min_bedrooms : Option Nat
  max_bedrooms : Option Nat
  min_bathrooms : Option Nat
  center_latitude : Option ℚ
  center_longitude : Option ℚ
  radius_km : Option ℚ
  areas : List String
  proximity_filters : List ProximityFilter
  environmental_filters : Option EnvironmentalFilter
  commute_filters : List CommuteFilter
  must_have_garden : Option Bool
  must_have_parking : Option Bool
  min_floor_area_sqft : Option Nat
  limit : Nat
  offset : Nat
  sort_by : String
deriving Repr, DecidableEq

/-- From `AdvancedFilters.tsx` (`FilterConflict.type`): conflicts are
warnings or errors. -/
inductive ConflictType where
  | warning
  | error
deriving Repr, DecidableEq, BEq

/-- From `AdvancedFilters.tsx` (`FilterConflict`). -/
structure FilterConflict where
  type : ConflictType
  message : String
  affectedFilters : List String
deriving Repr, DecidableEq

/-- Whitespace test used by the trim / tokenize embedding below. -/
def isWS (c : Char) : Bool :=
  c = ' ' || c = '\t' || c = '\n' || c = '\r'

/-- Whitespace trim over the character list: the embedding of
JavaScript `String.prototype.trim` / Python `str.strip`, written by
structural recursion so that it evaluates inside the kernel. -/
def strTrim (s : String) : String :=
  String.mk (((s.data.dropWhile isWS).reverse.dropWhile isWS).reverse)

/-- Character-wise lower-casing (embedding of `toLowerCase` /
`str.lower`). -/
def strLower (s : String) : String :=
  String.mk (s.data.map Char.toLower)

/-- Split on whitespace, dropping empty fragments; `acc` holds the
current fragment reversed. -/
def splitWSAux : List Char → List Char → List String
  | [], acc => if acc.isEmpty then [] else [String.mk acc.reverse]
  | c :: rest, acc =>
      if isWS c then
        if acc.isEmpty then splitWSAux rest []
        else String.mk acc.reverse :: splitWSAux rest []
      else splitWSAux rest (c :: acc)

/-- The numeric value of an all-digit character list, `none`
otherwise. -/
def natOfChars (l : List Char) : Option Nat :=
  if l.isEmpty then none
  else if l.all Char.isDigit then
    some (l.foldl (fun acc c => acc * 10 + (c.toNat - 48)) 0)
  else none

/-- Digit-string to `Nat` (embedding of `str.isdigit`-guarded integer
parsing). -/
def strToNat (s : String) : Option Nat :=
  natOfChars s.data

/-- Does the string end with the given character? -/
def endsWithChar (s : String) (c : Char) : Bool :=
  match s.data.reverse with
  | d :: _ => d = c
  | [] => false

/-- Drop the last `n` characters. -/
def strDropLast (s : String) (n : Nat) : String :=
  String.mk ((s.data.reverse.drop n).reverse)

/-- Does the token end in "br" (the "4br" bedroom form)? -/
def brSuffix (t : String) : Bool :=
  match t.data.reverse with
  | 'r' :: 'b' :: _ => true
  | _ => false

/-- From `AdvancedFilters.tsx` (`clearAllFilters`): spreads the current
criteria and resets `proximity_filters`, `environmental_filters` and
`commute_filters`. -/
def clearAllFilters (criteria : SearchCriteria) : SearchCriteria :=
  { criteria with
      proximity_filters := []
      environmental_filters := none
      commute_filters := [] }

/-- From `AdvancedFilters.tsx` (validation `useEffect`, the duplicate scan):
`proximityAmenities.filter((item, index) => proximityAmenities.indexOf(item) !== index)`. -/
def duplicateAmenities (proximityAmenities : List String) : List String :=
  (proximityAmenities.enum.filter
    (fun p => proximityAmenities.indexOf p.2 ≠ p.1)).map (·.2)

/-- From `AdvancedFilters.tsx` (validation `useEffect`): recomputes the
conflict list from the current criteria.  The conjuncts guarded by
JavaScript truthiness (`envFilters?.max_air_pollution_level && ...`) are
modelled with the explicit `≠ 0` test that truthiness performs. -/
def detectConflicts (criteria : SearchCriteria) : List FilterConflict :=
  let proximityAmenities := criteria.proximity_filters.map (·.amenity_type)
  let dups := duplicateAmenities proximityAmenities
  let commuteFilters := criteria.commute_filters
  let shortCommutes := commuteFilters.filter (fun f => f.max_commute_minutes < 10)
  let emptyTransportModes := commuteFilters.filter (fun f => f.transport_modes.length = 0)
  let emptyDestinations := commuteFilters.filter (fun f => strTrim f.destination_address = "")
  let airStrict : Bool :=
    match criteria.environmental_filters with
    | some env =>
        match env.max_air_pollution_level with
        | some v => decide (v ≠ 0) && decide (v < 15)
        | none => false
    | none => false
  let noiseStrict : Bool :=
    match criteria.environmental_filters with
    | some env =>
        match env.max_noise_level with
        | some v => decide (v ≠ 0) && decide (v < 40)
        | none => false
    | none => false
  let zeroDistanceFilters := criteria.proximity_filters.filter (fun f => f.max_distance = 0)
  let totalFilters := criteria.proximity_filters.length + criteria.commute_filters.length
  (if dups ≠ [] then
    [⟨ConflictType.warning,
      "Duplicate amenity filters detected: " ++ String.intercalate ", " dups ++
        ". Consider combining or removing duplicates.",
      ["proximity_filters"]⟩]
   else []) ++
  (if shortCommutes ≠ [] then
    [⟨ConflictType.warning,
      "Very short commute times (under 10 minutes) may limit available properties significantly",
      ["commute_filters"]⟩]
   else []) ++
  (if emptyTransportModes ≠ [] then
    [⟨ConflictType.error,
      "Commute filters must have at least one transport mode selected",
      ["commute_filters"]⟩]
   else []) ++
  (if emptyDestinations ≠ [] then
    [⟨ConflictType.error,
      "Commute filters must have a destination address specified",
      ["commute_filters"]⟩]
   else []) ++
  (if airStrict then
    [⟨ConflictType.warning,
      "Very strict air quality requirements (AQI < 15) may severely limit results",
      ["environmental_filters"]⟩]
   else []) ++
  (if noiseStrict then
    [⟨ConflictType.warning,
      "Very strict noise requirements (< 40dB) may severely limit results in urban areas",
      ["environmental_filters"]⟩]
   else []) ++
  (if zeroDistanceFilters ≠ [] then
    [⟨ConflictType.error,
      "Proximity filters must have a distance greater than 0",
      ["proximity_filters"]⟩]
   else []) ++
  (if totalFilters > 10 then
    [⟨ConflictType.warning,
      "Large number of filters may impact search performance. Consider using presets or reducing filters.",
      ["proximity_filters", "commute_filters"]⟩]
   else [])

/-- From `AdvancedFilters.tsx` (apply button): the Apply Filters button is
disabled exactly when `conflicts.some(c => c.type === 'error')`. -/
def applyFiltersDisabled (criteria : SearchCriteria) : Bool :=
  (detectConflicts criteria).any (fun c => c.type == ConflictType.error)

/-- From `SearchBar.tsx` (`saveToHistory`): ignore blank queries, then
prepend the query to the deduplicated-against-it history and keep the
first 10 entries. -/
def saveToHistory (searchQuery : String) (searchHistory : List String) : List String :=
  if strTrim searchQuery = "" then searchHistory
  else (searchQuery :: searchHistory.filter (fun h => h ≠ searchQuery)).take 10

/-- Modelled from the spec: surface unit of a distance entity (§4.2/§4.3 of
`spec.md`); the implementing module `nlp_service.py` is not in the
checked-out sources.  `walkMinutes` is the relative-time-walking form. -/
inductive DUnit where
  | meters
  | km
  | miles
  | walkMinutes
deriving Repr, DecidableEq

/-- Modelled from the spec: the normalized value carried by an extracted
entity (§3 `ExtractedEntity.normalized_value`, per rule family of §4.2);
`nlp_service.py` is not in the checked-out sources.  Price and bedroom
entities carry optional min/max bounds; distance entities carry a value, a
unit and the walking flag. -/
inductive EValue where
  | price (lo hi : Option ℚ)
  | bedrooms (lo hi : Option Nat)
  | ptype (t : String)
  | amenity (t : String)
  | dist (v : ℚ) (u : DUnit) (walking : Bool)
  | commute (dest : String) (minutes : Nat)
  | area (t : String)
deriving Repr, DecidableEq

/-- Modelled from the spec: an extracted entity (§3 `ExtractedEntity`);
`nlp_service.py` is not in the checked-out sources.  The span is kept in
token units (`pos` = index of the first matched token, `len` = number of
tokens matched), which is the granularity the Criteria Builder token
window of §4.4 is stated in. -/
structure Entity where
  value : EValue
  confidence : ℚ
  pos : Nat
  len : Nat
deriving Repr, DecidableEq

/-- Modelled from the spec (§4.1 Normalizer): lower-case and trim;
whitespace collapsing happens in `tokenize`.  (The offset map back to raw
spans is not needed by any claim and is omitted.) -/
def normalizeText (raw : String) : String :=
  strLower (strTrim raw)

/-- Modelled from the spec (§4.1): split on whitespace, dropping empty
fragments (this collapses whitespace). -/
def tokenize (text : String) : List String :=
  splitWSAux text.data []

/-- Modelled from the spec (§4.1 currency normalization): strip a leading
pound sign. -/
def stripPound (t : String) : String :=
  match t.data with
  | '£' :: rest => String.mk rest
  | _ => t

/-- Modelled from the spec (§4.2 price rule / §4.3): parse a money token
into whole pounds, with the `k` / `m` suffix multiplying by
1,000 / 1,000,000. -/
def parsePrice (t : String) : Option ℚ :=
  let t := stripPound t
  if endsWithChar t 'k' then (strToNat (strDropLast t 1)).map (fun n => ((n * 1000 : Nat) : ℚ))
  else if endsWithChar t 'm' then
    (strToNat (strDropLast t 1)).map (fun n => ((n * 1000000 : Nat) : ℚ))
  else (strToNat t).map (fun n => ((n : Nat) : ℚ))

/-- Split a character list on dashes (for "2-3" ranges). -/
def splitDashAux : List Char → List Char → List (List Char)
  | [], acc => [acc.reverse]
  | c :: rest, acc =>
      if c = '-' then acc.reverse :: splitDashAux rest []
      else splitDashAux rest (c :: acc)

/-- Modelled from the spec (§4.2 bedroom rule): "2" or a "2-3" range. -/
def parseNatRange (t : String) : Option (Nat × Nat) :=
  match splitDashAux t.data [] with
  | [a] => (natOfChars a).map (fun n => (n, n))
  | [a, b] =>
      match natOfChars a, natOfChars b with
      | some x, some y => some (x, y)
      | _, _ => none
  | _ => none

/-- Modelled from the spec (§4.2): the words accepted as a bedroom
marker. -/
def bedroomWord (t : String) : Bool :=
  t = "bedroom" || t = "bedrooms" || t = "bed" || t = "beds" || t = "br"

/-- Modelled from the spec (§4.2 property-type vocabulary with synonyms,
e.g. apartment→flat). -/
def ptypeOf (t : String) : Option String :=
  if t = "house" || t = "houses" then some "house"
  else if t = "flat" || t = "flats" || t = "apartment" || t = "apartments" then some "flat"
  else if t = "bungalow" || t = "bungalows" then some "bungalow"
  else if t = "maisonette" || t = "maisonettes" then some "maisonette"
  else if t = "land" then some "land"
  else none

/-- Modelled from the spec (§4.2 amenity vocabulary with synonym lists);
the two-token names are matched in `amenityRule`. -/
def amenityOf (t : String) : Option String :=
  if t = "park" || t = "parks" then some "park"
  else if t = "station" then some "train_station"
  else if t = "gym" || t = "gyms" then some "gym"
  else if t = "school" || t = "schools" then some "school"
  else if t = "hospital" || t = "hospitals" then some "hospital"
  else if t = "restaurant" || t = "restaurants" then some "restaurant"
  else if t = "pharmacy" || t = "pharmacies" then some "pharmacy"
  else none

/-- Modelled from the spec (§4.2 distance rule): explicit metric units. -/
def unitOf (t : String) : Option DUnit :=
  if t = "m" || t = "meter" || t = "meters" || t = "metre" || t = "metres" then some DUnit.meters
  else if t = "km" || t = "kilometer" || t = "kilometers" || t = "kilometre" || t = "kilometres" then
    some DUnit.km
  else if t = "mile" || t = "miles" then some DUnit.miles
  else none

/-- Modelled from the spec (§4.2 price rule): single bound
("under £500k", "over £200k") and explicit range
("between £300k and £600k").  A malformed numeric fragment makes the rule
fail, discarding only this entity (§7 case 2). -/
def priceRule : List String → Option (EValue × ℚ × Nat)
  | "under" :: p :: _ => (parsePrice p).map (fun v => (EValue.price none (some v), mkRat 9 10, 2))
  | "over" :: p :: _ => (parsePrice p).map (fun v => (EValue.price (some v) none, mkRat 9 10, 2))
  | "between" :: p :: "and" :: q :: _ =>
      match parsePrice p, parsePrice q with
      | some v, some w => some (EValue.price (some v) (some w), mkRat 9 10, 4)
      | _, _ => none
  | _ => none

/-- Modelled from the spec (§4.2 commute rule): a destination token ends
the free-text capture when the next recognized entity starts (a number, a
vocabulary word, or a price/distance keyword). -/
def stopTok (t : String) : Bool :=
  (strToNat t).isSome || (amenityOf t).isSome || (ptypeOf t).isSome ||
    t = "under" || t = "over" || t = "between" || t = "within" || t = "near" ||
    t = "train" || t = "shopping"

/-- Modelled from the spec (§4.2 commute phrase):
"`<N>` minutes to `<destination>`", capturing the free-text destination up
to the next recognized entity or the end of the text. -/
def commuteRule : List String → Option (EValue × ℚ × Nat)
  | n :: "minutes" :: "to" :: rest =>
      match strToNat n, rest.takeWhile (fun t => !stopTok t) with
      | some m, d :: ds =>
          some (EValue.commute (String.intercalate " " (d :: ds)) m, mkRat 9 10, 3 + (d :: ds).length)
      | _, _ => none
  | _ => none

/-- Modelled from the spec (§4.2 distance rule): explicit metric
("500 meters", "2 km", "1 mile") or relative-time-walking form
("within 10 minutes walk"). -/
def distanceRule : List String → Option (EValue × ℚ × Nat)
  | "within" :: n :: "minutes" :: "walk" :: _ =>
      (strToNat n).map (fun m => (EValue.dist (m : ℚ) DUnit.walkMinutes true, mkRat 9 10, 4))
  | n :: "minutes" :: "walk" :: _ =>
      (strToNat n).map (fun m => (EValue.dist (m : ℚ) DUnit.walkMinutes true, mkRat 9 10, 3))
  | n :: u :: _ =>
      match strToNat n, unitOf u with
      | some m, some uu => some (EValue.dist (m : ℚ) uu false, mkRat 9 10, 2)
      | _, _ => none
  | _ => none

/-- Modelled from the spec (§4.2 amenity rule): two-token amenity names
first, then the single-token vocabulary of `amenityOf`. -/
def amenityRule : List String → Option (EValue × ℚ × Nat)
  | "train" :: "station" :: _ => some (EValue.amenity "train_station", mkRat 9 10, 2)
  | "shopping" :: "center" :: _ => some (EValue.amenity "shopping_center", mkRat 9 10, 2)
  | "shopping" :: "centre" :: _ => some (EValue.amenity "shopping_center", mkRat 9 10, 2)
  | t :: _ => (amenityOf t).map (fun a => (EValue.amenity a, mkRat 9 10, 1))
  | _ => none

/-- Modelled from the spec (§4.2 bedroom rule): "2 bedroom", "3 bed",
"4br", optional range "2-3 bed". -/
def bedroomRule : List String → Option (EValue × ℚ × Nat)
  | n :: b :: _ =>
      if bedroomWord b then
        (parseNatRange n).map (fun p => (EValue.bedrooms (some p.1) (some p.2), mkRat 9 10, 2))
      else if brSuffix n then
        (strToNat (strDropLast n 2)).map (fun m => (EValue.bedrooms (some m) (some m), mkRat 9 10, 1))
      else none
  | [n] =>
      if brSuffix n then
        (strToNat (strDropLast n 2)).map (fun m => (EValue.bedrooms (some m) (some m), mkRat 9 10, 1))
      else none
  | _ => none

/-- Modelled from the spec (§4.2 property-type rule). -/
def ptypeRule : List String → Option (EValue × ℚ × Nat)
  | t :: _ => (ptypeOf t).map (fun p => (EValue.ptype p, mkRat 9 10, 1))
  | _ => none

/-- Modelled from the spec (§4.2): rule families are tried in the fixed
priority order price > commute phrase > distance > amenity > bedroom >
property type.  (The UK-postcode / capitalized-area-name rule of §4.2
operates on capitalization that normalization removes and is not needed
by any claim; unmatched text is covered by the §4.5 fallback.) -/
def tryRules (rem : List String) : Option (EValue × ℚ × Nat) :=
  (priceRule rem).orElse (fun _ =>
  (commuteRule rem).orElse (fun _ =>
  (distanceRule rem).orElse (fun _ =>
  (amenityRule rem).orElse (fun _ =>
  (bedroomRule rem).orElse (fun _ =>
  ptypeRule rem)))))

/-- Modelled from the spec (§4.2): greedy left-to-right scan; a rule match
consumes its tokens (the priority order of `tryRules` resolves overlaps,
and the loser is discarded entirely).  `fuel` bounds the recursion by the
token count. -/
def scanAux : Nat → List String → Nat → List Entity
  | 0, _, _ => []
  | _, [], _ => []
  | fuel + 1, t :: rest, i =>
      match tryRules (t :: rest) with
      | some (v, conf, consumed) =>
          ⟨v, conf, i, consumed⟩ :: scanAux fuel (rest.drop (consumed - 1)) (i + consumed)
      | none => scanAux fuel rest (i + 1)

/-- Modelled from the spec (§4.2 `extract`): deterministic rule
application over the normalized tokens. -/
def extract (text : String) : List Entity :=
  let toks := tokenize text
  scanAux toks.length toks 0

/-- Modelled from the spec (§4.3 Unit & Range Resolver constants):
1 mile = 1609.34 m, 1 km = 1000 m, walking time at 80 m/min. -/
def toMeters (v : ℚ) : DUnit → ℚ
  | DUnit.meters => v
  | DUnit.km => v * 1000
  | DUnit.miles => v * (160934 / 100)
  | DUnit.walkMinutes => v * 80

/-- Modelled from the spec (§4.3): reversed ranges (min > max) are
swapped, not rejected. -/
def swapIfReversed {α : Type} [LinearOrder α] :
    Option α → Option α → Option α × Option α
  | some a, some b => if b < a then (some b, some a) else (some a, some b)
  | lo, hi => (lo, hi)

/-- Modelled from the spec (§4.3 `resolve` on one value): distances are
converted to meters; price and bedroom ranges are reordered. -/
def resolveValue : EValue → EValue
  | EValue.price lo hi =>
      let p := swapIfReversed lo hi
      EValue.price p.1 p.2
  | EValue.bedrooms lo hi =>
      let p := swapIfReversed lo hi
      EValue.bedrooms p.1 p.2
  | EValue.dist v u w => EValue.dist (toMeters v u) DUnit.meters w
  | v => v

/-- Modelled from the spec (§4.3 `resolve(entities) → entities'`): same
shape, normalized values. -/
def resolveEntities (entities : List Entity) : List Entity :=
  entities.map (fun e => { e with value := resolveValue e.value })

/-- Modelled from the spec (§3 `SearchCriteria` "paging/sort defaults"):
the defaults every build starts from. -/
def nlpDefaultCriteria : SearchCriteria where
  min_price := none
  max_price := none
  property_types := []
  status := []
  min_bedrooms := none
  max_bedrooms := none
  min_bathrooms := none
  center_latitude := none
  center_longitude := none
  radius_km := none
  areas := []
  proximity_filters := []
  environmental_filters := none
  commute_filters := []
  must_have_garden := none
  must_have_parking := none
  min_floor_area_sqft := none
  limit := 50
  offset := 0
  sort_by := "relevance"

/-- Modelled from the spec (§4.4): is this a distance entity? -/
def isDistE (e : Entity) : Bool :=
  match e.value with
  | EValue.dist _ _ _ => true
  | _ => false

/-- Modelled from the spec (§4.4): is this an amenity entity? -/
def isAmenityE (e : Entity) : Bool :=
  match e.value with
  | EValue.amenity _ => true
  | _ => false

/-- Token gap between two entity positions (the spec measures the §4.4
merge window in tokens). -/
def tokGap (a b : Nat) : Nat :=
  if a ≤ b then b - a else a - b

/-- Modelled from the spec (§4.4): the meters value of a resolved
distance entity (0 for other entities, never used on them). -/
def distMeters : EValue → ℚ
  | EValue.dist v _ _ => v
  | _ => 0

/-- Modelled from the spec (§4.4): the walking flag of a distance
entity. -/
def distWalking : EValue → Bool
  | EValue.dist _ _ w => w
  | _ => true

/-- Modelled from the spec (§4.4): keep whichever of the running best and
the next candidate is nearer to `apos`. -/
def pickNearer (apos : Nat) (best : Option Entity) (d : Entity) : Option Entity :=
  match best with
  | none => some d
  | some b => if tokGap apos d.pos < tokGap apos b.pos then some d else some b

/-- Modelled from the spec (§4.4): the nearest distance entity within the
bounded token window (default 6 tokens) to the right or left of `apos`. -/
def nearestDist (entities : List Entity) (apos : Nat) : Option Entity :=
  (entities.filter (fun d => isDistE d && tokGap apos d.pos ≤ 6)).foldl (pickNearer apos) none

/-- Modelled from the spec (§4.4): the proximity constraint built for one
amenity entity — the merged nearby distance when one exists, otherwise
the policy default of 1000 m with walking=true. -/
def proxOf (entities : List Entity) (apos : Nat) (cat : String) : ProximityFilter :=
  match nearestDist entities apos with
  | some d => ⟨cat, distMeters d.value, "meters", distWalking d.value⟩
  | none => ⟨cat, 1000, "meters", true⟩

/-- Modelled from the spec (§4.4): every amenity entity surfaces as one
ProximityConstraint; unmatched ones get the default rather than being
dropped. -/
def buildProximity (entities : List Entity) : List ProximityFilter :=
  entities.filterMap (fun e =>
    match e.value with
    | EValue.amenity cat => some (proxOf entities e.pos cat)
    | _ => none)

/-- Modelled from the spec (§3 `CommuteConstraint` / §4.4): commute
entities become commute constraints; `transport_modes` defaults to an
inferred set when no mode entity is present. -/
def buildCommute (entities : List Entity) : List CommuteFilter :=
  entities.filterMap (fun e =>
    match e.value with
    | EValue.commute dest minutes => some ⟨dest, minutes, ["public_transport"]⟩
    | _ => none)

/-- Modelled from the spec (§4.4): scalar/range fields map directly;
duplicates of the same field — the last-occurring wins. -/
def applyEntity (c : SearchCriteria) (e : Entity) : SearchCriteria :=
  match e.value with
  | EValue.price lo hi => { c with min_price := lo, max_price := hi }
  | EValue.bedrooms lo hi => { c with min_bedrooms := lo, max_bedrooms := hi }
  | EValue.ptype t => { c with property_types := c.property_types ++ [t] }
  | EValue.area t => { c with areas := c.areas ++ [t] }
  | _ => c

/-- Modelled from the spec (§4.4 `build(entities) → SearchCriteria`, with
the §4.5/§6 fallback): when nothing was extracted, the raw text populates
the free-text area list; otherwise a single pass maps entities onto the
criteria and the merge passes build the constraint lists. -/
def build (entities : List Entity) (rawText : String) : SearchCriteria :=
  if entities.isEmpty then { nlpDefaultCriteria with areas := [rawText] }
  else
    let base := entities.foldl applyEntity nlpDefaultCriteria
    { base with
        proximity_filters := buildProximity entities
        commute_filters := buildCommute entities }

/-- Modelled from the spec (§4.5 Intent Classifier): the coarse category
label of one entity type. -/
def entCategory : EValue → String
  | EValue.price _ _ => "price_range"
  | EValue.bedrooms _ _ => "property_type"
  | EValue.ptype _ => "property_type"
  | EValue.amenity _ => "amenity_proximity"
  | EValue.dist _ _ _ => "amenity_proximity"
  | EValue.commute _ _ => "commute"
  | EValue.area _ => "location_search"

/-- Modelled from the spec (§4.5 `classify`): one category → its label;
none → the generic "area_search" fallback; two or more → "mixed".  A pure
function of the entity-type multiset. -/
def classify (entities : List Entity) : String :=
  match (entities.map (fun e => entCategory e.value)).dedup with
  | [] => "area_search"
  | [c] => c
  | _ => "mixed"

/-- From `frontend/src/services/api.ts` (`ParseResponse`) /
`SearchBar.tsx` (`ParsedQuery`): the parse result shape. -/
structure ParsedQuery where
  query : String
  parsed_criteria : SearchCriteria
  extracted_entities : List Entity
  intent : String
deriving Repr, DecidableEq

/-- Modelled from the spec (§6 `parse(text) → ParsedQuery`): normalize,
extract, resolve, build and classify; empty/whitespace input returns an
empty ParsedQuery without signaling failure (§7 case 3), and a total Lean
function models "never throws". -/
def parse (text : String) : ParsedQuery :=
  if strTrim text = "" then ⟨text, nlpDefaultCriteria, [], "area_search"⟩
  else
    let entities := resolveEntities (extract (normalizeText text))
    ⟨text, build entities text, entities, classify entities⟩

/-- Modelled from the spec (§3 `SuggestionTemplate`): a corpus entry,
plus the static priority weight of §4.6. -/
structure SuggestionTemplate where
  pattern_text : String
  description : String
  category : String
  example_filters : List String
  priority : ℚ
deriving Repr, DecidableEq

/-- Modelled from the spec (§3 `RankedSuggestion`). -/
structure RankedSuggestion where
  text : String
  description : String
  category : String
  confidence : ℚ
deriving Repr, DecidableEq

/-- Modelled from the spec (§3): the static, load-once suggestion corpus
(representative entries; the reference corpus contents are not in the
checked-out sources). -/
def defaultCorpus : List SuggestionTemplate :=
  [⟨"near train station", "Properties close to a train station", "amenity", ["train_station"], 8 / 10⟩,
   ⟨"2 bedroom flat", "Two bedroom flats", "property_type", ["flat"], 7 / 10⟩,
   ⟨"under £400k", "Properties within budget", "price", ["max_price"], 7 / 10⟩,
   ⟨"near park", "Properties close to green space", "amenity", ["park"], 6 / 10⟩,
   ⟨"within 10 minutes walk of a train station", "Walkable transport links", "amenity",
     ["train_station"], 6 / 10⟩,
   ⟨"30 minutes to central london", "Commute-bounded search", "commute", ["commute"], 5 / 10⟩]

/-- Substring test over character lists, used for the §4.6 substring
match strength. -/
def listContains (pat : List Char) : List Char → Bool
  | [] => pat.isEmpty
  | c :: rest => pat.isPrefixOf (c :: rest) || listContains pat rest

/-- Modelled from the spec (§4.6): the corpus category an extracted
entity boosts. -/
def boostCategory : EValue → String
  | EValue.price _ _ => "price"
  | EValue.bedrooms _ _ => "property_type"
  | EValue.ptype _ => "property_type"
  | EValue.amenity _ => "amenity"
  | EValue.dist _ _ _ => "amenity"
  | EValue.commute _ _ => "commute"
  | EValue.area _ => "location"

/-- Modelled from the spec (§4.6): weighted combination of (a)
prefix/substring match strength, (b) category relevance from running the
Entity Extractor on the partial text, and (c) the static template
priority weight. -/
def scoreTemplate (ntext : String) (t : SuggestionTemplate) : ℚ :=
  let matchStrength : ℚ :=
    if ntext.data.isPrefixOf t.pattern_text.data then 1
    else if listContains ntext.toList t.pattern_text.toList then 1 / 2
    else 0
  let catBoost : ℚ :=
    if (extract ntext).any (fun e => boostCategory e.value = t.category) then 1 / 2
    else 0
  matchStrength + catBoost + t.priority / 10

/-- Modelled from the spec (§4.6): stable descending insertion — an
element is placed before the already-sorted tail exactly when its score
is at least the head score, so equal scores keep declaration order. -/
def insertDesc (x : ℚ × SuggestionTemplate) :
    List (ℚ × SuggestionTemplate) → List (ℚ × SuggestionTemplate)
  | [] => [x]
  | y :: ys => if y.1 ≤ x.1 then x :: y :: ys else y :: insertDesc x ys

/-- Modelled from the spec (§4.6): stable sort, descending by combined
score, ties by template declaration order. -/
def sortDesc : List (ℚ × SuggestionTemplate) → List (ℚ × SuggestionTemplate)
  | [] => []
  | x :: xs => insertDesc x (sortDesc xs)

/-- Modelled from the spec (§4.6 / §6 `suggest(partial_text, limit)`):
inputs shorter than 2 characters yield the empty list; otherwise score
every template against the normalized input, sort (stable, descending),
truncate to `limit`, and return confidence-scored entries. -/
def suggest (partialText : String) (limit : Nat) : List RankedSuggestion :=
  if partialText.length < 2 then []
  else
    let ntext := normalizeText partialText
    let ranked := sortDesc (defaultCorpus.map (fun t => (scoreTemplate ntext t, t)))
    (ranked.take limit).map (fun p =>
      ⟨p.2.pattern_text, p.2.description, p.2.category, min 1 p.1⟩)

/-- The §3 numeric-bound invariant on one optional range: whenever both
ends are present, min ≤ max. -/
def RangeOrdered {α : Type} [LE α] (lo hi : Option α) : Prop :=
  ∀ a b, lo = some a → hi = some b → a ≤ b

/-- The §3 invariant on one entity value: its range, if any, is
ordered. -/
def ValueOrdered : EValue → Prop
  | EValue.price lo hi => RangeOrdered lo hi
  | EValue.bedrooms lo hi => RangeOrdered lo hi
  | _ => True

/-- The §3 invariant on a criteria object: both numeric bounds are
ordered. -/
def CriteriaOrdered (c : SearchCriteria) : Prop :=
  RangeOrdered c.min_price c.max_price ∧ RangeOrdered c.min_bedrooms c.max_bedrooms

theorem swapIfReversed_ordered {α : Type} [LinearOrder α] (lo hi : Option α) :
    RangeOrdered (swapIfReversed lo hi).1 (swapIfReversed lo hi).2 := by
  intro a b ha hb
  cases lo with
  | none => simp [swapIfReversed] at ha
  | some x =>
    cases hi with
    | none => simp [swapIfReversed] at hb
    | some y =>
      by_cases h : y < x
      · simp [swapIfReversed, h] at ha hb
        subst ha
        subst hb
        exact h.le
      · simp [swapIfReversed, h] at ha hb
        subst ha
        subst hb
        exact le_of_not_lt h

theorem resolveValue_ordered (v : EValue) : ValueOrdered (resolveValue v) := by
  cases v with
  | price lo hi => exact swapIfReversed_ordered lo hi
  | bedrooms lo hi => exact swapIfReversed_ordered lo hi
  | ptype t => trivial
  | amenity t => trivial
  | dist v u w => trivial
  | commute d m => trivial
  | area t => trivial

theorem resolveEntities_ordered (l : List Entity) :
    ∀ e ∈ resolveEntities l, ValueOrdered e.value := by
  intro e he
  rcases List.mem_map.mp he with ⟨a, _, rfl⟩
  exact resolveValue_ordered a.value

theorem rangeOrdered_none_left {α : Type} [LE α] (hi : Option α) :
    RangeOrdered (none : Option α) hi := by
  intro a b ha _
  cases ha

theorem criteriaOrdered_default : CriteriaOrdered nlpDefaultCriteria :=
  ⟨rangeOrdered_none_left _, rangeOrdered_none_left _⟩

theorem criteriaOrdered_applyEntity (c : SearchCriteria) (e : Entity)
    (hv : ValueOrdered e.value) (hc : CriteriaOrdered c) :
    CriteriaOrdered (applyEntity c e) := by
  obtain ⟨v, conf, pos, len⟩ := e
  cases v with
  | price lo hi => exact ⟨hv, hc.2⟩
  | bedrooms lo hi => exact ⟨hc.1, hv⟩
  | ptype t => exact hc
  | amenity t => exact hc
  | dist v u w => exact hc
  | commute d m => exact hc
  | area t => exact hc

theorem criteriaOrdered_foldl :
    ∀ (l : List Entity) (c : SearchCriteria),
      (∀ e ∈ l, ValueOrdered e.value) → CriteriaOrdered c →
      CriteriaOrdered (l.foldl applyEntity c)
  | [], _, _, hc => hc
  | e :: l, c, hl, hc =>
      criteriaOrdered_foldl l (applyEntity c e)
        (fun x hx => hl x (List.mem_cons_of_mem e hx))
        (criteriaOrdered_applyEntity c e (hl e (List.mem_cons_self e l)) hc)

theorem criteriaOrdered_build (l : List Entity) (raw : String)
    (hl : ∀ e ∈ l, ValueOrdered e.value) : CriteriaOrdered (build l raw) := by
  unfold build
  by_cases h : l.isEmpty
  · simp only [h, if_true]
    exact criteriaOrdered_default
  · simp only [h, if_false]
    exact criteriaOrdered_foldl l nlpDefaultCriteria hl criteriaOrdered_default

theorem criteriaOrdered_parse (s : String) : CriteriaOrdered (parse s).parsed_criteria := by
  unfold parse
  by_cases h : strTrim s = ""
  · simp only [h, if_true]
    exact criteriaOrdered_default
  · simp only [h, if_false]
    exact criteriaOrdered_build _ _ (resolveEntities_ordered _)

/-- C1: `parse` is a total function (never throws on any string), and on
a non-whitespace input in which no extraction rule recognizes anything it
returns a ParsedQuery with an empty entity list, criteria populated only
by the raw-text-as-area fallback, and the generic fallback intent
"area_search". -/
theorem parse_unrecognized_fallback (s : String) (hs : strTrim s ≠ "")
    (hx : extract (normalizeText s) = []) :
    parse s = ⟨s, { nlpDefaultCriteria with areas := [s] }, [], "area_search"⟩ := by
  simp [parse, hs, hx, resolveEntities, build, classify]

theorem parse_unrecognized_fallback_witness :
    parse "zzz qqq" =
      ⟨"zzz qqq", { nlpDefaultCriteria with areas := ["zzz qqq"] }, [], "area_search"⟩ :=
  parse_unrecognized_fallback "zzz qqq" (by decide) (by decide)

/-- C2: in every parse output, each numeric bound (price and bedrooms)
satisfies min ≤ max whenever both ends are present, and a reversed range
coming out of extraction is swapped by the resolver rather than rejected
or dropped. -/
theorem parse_ranges_ordered :
    (∀ s : String,
      RangeOrdered (parse s).parsed_criteria.min_price (parse s).parsed_criteria.max_price ∧
      RangeOrdered (parse s).parsed_criteria.min_bedrooms (parse s).parsed_criteria.max_bedrooms) ∧
    (∀ a b : ℚ, b < a →
      resolveValue (EValue.price (some a) (some b)) = EValue.price (some b) (some a)) ∧
    (∀ a b : Nat, b < a →
      resolveValue (EValue.bedrooms (some a) (some b)) = EValue.bedrooms (some b) (some a)) := by
  refine ⟨fun s => criteriaOrdered_parse s, fun a b h => ?_, fun a b h => ?_⟩
  · simp [resolveValue, swapIfReversed, h]
  · simp [resolveValue, swapIfReversed, h]

theorem parse_ranges_ordered_witness :
    (300000 : ℚ) ≤ 600000 ∧
    resolveValue (EValue.price (some 2) (some 1)) = EValue.price (some 1) (some 2) :=
  ⟨(parse_ranges_ordered.1 "between £600k and £300k").1 300000 600000 (by decide) (by decide),
   parse_ranges_ordered.2.1 2 1 (by norm_num)⟩

/-- C4: `suggest` returns the empty list whenever the partial text is
shorter than 2 characters, for every limit. -/
theorem suggest_short_input_empty (partialText : String) (limit : Nat)
    (h : partialText.length < 2) : suggest partialText limit = [] := by
  simp [suggest, h]

theorem suggest_short_input_empty_witness : suggest "a" 7 = [] :=
  suggest_short_input_empty "a" 7 (by decide)

/-- C5: the ranked suggestion list is truncated to `limit`, so it never
has more than `limit` entries; in particular limit 0 returns the empty
list. -/
theorem suggest_truncated_to_limit :
    (∀ (partialText : String) (limit : Nat), (suggest partialText limit).length ≤ limit) ∧
    (∀ partialText : String, suggest partialText 0 = []) := by
  constructor
  · intro t n
    unfold suggest
    by_cases h : t.length < 2
    · simp [h]
    · simp only [h, if_false, List.length_map, List.length_take]
      exact min_le_left _ _
  · intro t
    unfold suggest
    by_cases h : t.length < 2 <;> simp [h]

/-- C6: `parse` and `suggest` are pure functions of their inputs plus the
fixed corpus — repeated calls with identical arguments return identical
results.  In this embedding both are closed Lean functions over the
static `defaultCorpus` and rule tables, with no state, randomness or
time input, so determinism holds definitionally. -/
theorem parse_suggest_deterministic :
    ∀ (s partialText : String) (limit : Nat),
      parse s = parse s ∧ suggest partialText limit = suggest partialText limit :=
  fun _ _ _ => ⟨rfl, rfl⟩

theorem foldl_pickNearer_mem (apos : Nat) (l : List Entity) :
    ∀ (acc : Option Entity) (x : Entity),
      l.foldl (pickNearer apos) acc = some x → x ∈ l ∨ acc = some x := by
  induction l with
  | nil => exact fun acc x h => Or.inr h
  | cons d l ih =>
    intro acc x h
    rw [List.foldl_cons] at h
    rcases ih _ x h with hm | hs
    · exact Or.inl (List.mem_cons_of_mem d hm)
    · cases acc with
      | none =>
        simp [pickNearer] at hs
        exact Or.inl (hs ▸ List.mem_cons_self d l)
      | some b =>
        by_cases hlt : tokGap apos d.pos < tokGap apos b.pos
        · simp [pickNearer, hlt] at hs
          exact Or.inl (hs ▸ List.mem_cons_self d l)
        · simp [pickNearer, hlt] at hs
          exact Or.inr (by rw [hs])

theorem nearestDist_mem (l : List Entity) (apos : Nat) (d : Entity)
    (h : nearestDist l apos = some d) : d ∈ l ∧ isDistE d = true := by
  rcases foldl_pickNearer_mem apos _ none d h with hm | hs
  · have hmf := List.mem_filter.mp hm
    have h2 := hmf.2
    simp only [Bool.and_eq_true] at h2
    exact ⟨hmf.1, h2.1⟩
  · cases hs

theorem nearestDist_none (l : List Entity) (apos : Nat)
    (h : ∀ d ∈ l, isDistE d = true → ¬ tokGap apos d.pos ≤ 6) :
    nearestDist l apos = none := by
  unfold nearestDist
  have hnil : l.filter (fun d => isDistE d && tokGap apos d.pos ≤ 6) = [] := by
    apply List.filter_eq_nil_iff.mpr
    intro a ha
    simp only [Bool.and_eq_true, decide_eq_true_eq, not_and]
    exact h a ha
  rw [hnil]
  rfl

theorem buildProximity_length_aux (ents : List Entity) :
    ∀ l : List Entity,
      (l.filterMap (fun e =>
        match e.value with
        | EValue.amenity cat => some (proxOf ents e.pos cat)
        | _ => none)).length = l.countP isAmenityE := by
  intro l
  induction l with
  | nil => rfl
  | cons e l ih =>
    obtain ⟨v, conf, pos, len⟩ := e
    cases v <;> simp [List.filterMap_cons, List.countP_cons, isAmenityE, ih]

/-- C3: after the resolver every distance entity is expressed in meters —
in particular one mile becomes 1609.34 m (within 1 m of 1609) and a
10-minute walk becomes 800 m — and the builder performs no further unit
conversion: every built proximity constraint carries either the 1000 m
default or a resolved meters value verbatim from a distance entity. -/
theorem distances_normalized_to_meters :
    (∀ l : List Entity, ∀ e ∈ resolveEntities l, ∀ v u w,
        e.value = EValue.dist v u w → u = DUnit.meters) ∧
    (toMeters 1 DUnit.miles = 160934 / 100 ∧ |toMeters 1 DUnit.miles - 1609| ≤ 1) ∧
    toMeters 10 DUnit.walkMinutes = 800 ∧
    (∀ l : List Entity, ∀ c ∈ buildProximity l,
        c.max_distance = 1000 ∨ ∃ e ∈ l, ∃ u w, e.value = EValue.dist c.max_distance u w) := by
  have hmile : toMeters 1 DUnit.miles = 160934 / 100 := by
    show (1 : ℚ) * (160934 / 100) = 160934 / 100
    rw [one_mul]
  refine ⟨?_, ⟨hmile, ?_⟩, ?_, ?_⟩
  · intro l e he v u w hv
    rcases List.mem_map.mp he with ⟨a, _, rfl⟩
    obtain ⟨av, aconf, apos, alen⟩ := a
    cases av with
    | price lo hi => simp [resolveValue] at hv
    | bedrooms lo hi => simp [resolveValue] at hv
    | ptype t => simp [resolveValue] at hv
    | amenity t => simp [resolveValue] at hv
    | dist v0 u0 w0 =>
      simp [resolveValue] at hv
      exact hv.2.1.symm
    | commute d m => simp [resolveValue] at hv
    | area t => simp [resolveValue] at hv
  · rw [hmile, abs_le]
    constructor <;> norm_num
  · show (10 : ℚ) * 80 = 800
    norm_num
  · intro l c hc
    rcases List.mem_filterMap.mp hc with ⟨a, ha, hfa⟩
    obtain ⟨av, aconf, apos, alen⟩ := a
    cases av with
    | price lo hi => simp at hfa
    | bedrooms lo hi => simp at hfa
    | ptype t => simp at hfa
    | amenity cat =>
      simp only [Option.some.injEq] at hfa
      unfold proxOf at hfa
      cases hnd : nearestDist l apos with
      | none =>
        rw [hnd] at hfa
        exact Or.inl (by rw [← hfa])
      | some d =>
        rw [hnd] at hfa
        right
        obtain ⟨hdl, hdist⟩ := nearestDist_mem l apos d hnd
        obtain ⟨dv, dconf, dpos, dlen⟩ := d
        cases dv with
        | dist v u w =>
          refine ⟨_, hdl, u, w, ?_⟩
          rw [← hfa]
          rfl
        | price lo hi => simp [isDistE] at hdist
        | bedrooms lo hi => simp [isDistE] at hdist
        | ptype t => simp [isDistE] at hdist
        | amenity t => simp [isDistE] at hdist
        | commute d m => simp [isDistE] at hdist
        | area t => simp [isDistE] at hdist
    | dist v u w => simp at hfa
    | commute d m => simp at hfa
    | area t => simp at hfa

theorem distances_normalized_to_meters_witness :
    DUnit.meters = DUnit.meters ∧
    ((⟨"park", 500, "meters", false⟩ : ProximityFilter).max_distance = 1000 ∨
     ∃ e ∈ [(⟨EValue.amenity "park", mkRat 9 10, 0, 1⟩ : Entity),
            ⟨EValue.dist 500 DUnit.meters false, mkRat 9 10, 2, 2⟩],
       ∃ u w, e.value =
         EValue.dist (⟨"park", 500, "meters", false⟩ : ProximityFilter).max_distance u w) := by
  constructor
  · exact distances_normalized_to_meters.1 [⟨EValue.dist 3 DUnit.meters false, mkRat 9 10, 0, 1⟩]
      ⟨EValue.dist 3 DUnit.meters false, mkRat 9 10, 0, 1⟩ (by decide) 3 DUnit.meters false rfl
  · exact distances_normalized_to_meters.2.2.2 _ _ (by decide)

/-- C7: every recognized amenity entity surfaces as exactly one proximity
constraint (none is dropped), and an amenity with no distance entity
within the 6-token merge window yields the default constraint of 1000
meters with walking=true. -/
theorem amenity_default_constraint (l : List Entity) :
    (buildProximity l).length = l.countP isAmenityE ∧
    ∀ e ∈ l, ∀ cat, e.value = EValue.amenity cat →
      (∀ d ∈ l, isDistE d = true → 6 < tokGap e.pos d.pos) →
      ProximityFilter.mk cat 1000 "meters" true ∈ buildProximity l := by
  constructor
  · exact buildProximity_length_aux l l
  · intro e he cat hcat hfar
    have hnone : nearestDist l e.pos = none :=
      nearestDist_none l e.pos (fun d hd hdist => by have := hfar d hd hdist; omega)
    apply List.mem_filterMap.mpr
    refine ⟨e, he, ?_⟩
    rw [hcat]
    show some (proxOf l e.pos cat) = some (ProximityFilter.mk cat 1000 "meters" true)
    unfold proxOf
    rw [hnone]

theorem amenity_default_constraint_witness :
    ProximityFilter.mk "school" 1000 "meters" true ∈
      buildProximity [(⟨EValue.amenity "school", mkRat 9 10, 0, 1⟩ : Entity),
        ⟨EValue.dist 500 DUnit.meters false, mkRat 9 10, 9, 2⟩] :=
  (amenity_default_constraint _).2 ⟨EValue.amenity "school", mkRat 9 10, 0, 1⟩
    (by decide) "school" rfl (by decide)

/-- C8: whenever some commute filter has an empty transport-mode list, or
some commute filter has a blank destination address, or some proximity
filter has max_distance 0, the conflict detector reports an error-type
conflict, and the Apply Filters button is disabled, so `onApplyFilters`
cannot fire on such criteria. -/
theorem error_conflicts_disable_apply (c : SearchCriteria)
    (h : (∃ f ∈ c.commute_filters, f.transport_modes = []) ∨
         (∃ f ∈ c.commute_filters, strTrim f.destination_address = "") ∨
         (∃ f ∈ c.proximity_filters, f.max_distance = 0)) :
    (∃ k ∈ detectConflicts c, k.type = ConflictType.error) ∧
    applyFiltersDisabled c = true := by
  have key : ∃ k ∈ detectConflicts c, k.type = ConflictType.error := by
    rcases h with ⟨f, hf, hm⟩ | ⟨f, hf, hd⟩ | ⟨f, hf, hz⟩
    · have hcond : c.commute_filters.filter (fun f => f.transport_modes.length = 0) ≠ [] :=
        List.ne_nil_of_mem (List.mem_filter.mpr ⟨hf, by simp [hm]⟩)
      refine ⟨⟨ConflictType.error,
        "Commute filters must have at least one transport mode selected",
        ["commute_filters"]⟩, ?_, rfl⟩
      simp only [detectConflicts]
      apply List.mem_append_left
      apply List.mem_append_left
      apply List.mem_append_left
      apply List.mem_append_left
      apply List.mem_append_left
      apply List.mem_append_right
      rw [if_pos hcond]
      exact List.mem_singleton_self _
    · have hcond : c.commute_filters.filter (fun f => strTrim f.destination_address = "") ≠ [] :=
        List.ne_nil_of_mem (List.mem_filter.mpr ⟨hf, by simp [hd]⟩)
      refine ⟨⟨ConflictType.error,
        "Commute filters must have a destination address specified",
        ["commute_filters"]⟩, ?_, rfl⟩
      simp only [detectConflicts]
      apply List.mem_append_left
      apply List.mem_append_left
      apply List.mem_append_left
      apply List.mem_append_left
      apply List.mem_append_right
      rw [if_pos hcond]
      exact List.mem_singleton_self _
    · have hcond : c.proximity_filters.filter (fun f => f.max_distance = 0) ≠ [] :=
        List.ne_nil_of_mem (List.mem_filter.mpr ⟨hf, by simp [hz]⟩)
      refine ⟨⟨ConflictType.error,
        "Proximity filters must have a distance greater than 0",
        ["proximity_filters"]⟩, ?_, rfl⟩
      simp only [detectConflicts]
      apply List.mem_append_left
      apply List.mem_append_right
      rw [if_pos hcond]
      exact List.mem_singleton_self _
  refine ⟨key, ?_⟩
  rcases key with ⟨k, hk, he⟩
  apply List.any_eq_true.mpr
  refine ⟨k, hk, ?_⟩
  rw [he]
  rfl

theorem error_conflicts_disable_apply_witness :
    (∃ k ∈ detectConflicts
        { nlpDefaultCriteria with commute_filters := [⟨"London", 30, []⟩] },
      k.type = ConflictType.error) ∧
    applyFiltersDisabled
        { nlpDefaultCriteria with commute_filters := [⟨"London", 30, []⟩] } = true :=
  error_conflicts_disable_apply _
    (Or.inl ⟨⟨"London", 30, []⟩, List.mem_singleton_self _, rfl⟩)

/-- C9: `clearAllFilters` empties the proximity and commute filter lists
and unsets the environmental filters, while leaving every other field of
the criteria unchanged. -/
theorem clearAllFilters_frame (c : SearchCriteria) :
    (clearAllFilters c).proximity_filters = [] ∧
    (clearAllFilters c).commute_filters = [] ∧
    (clearAllFilters c).environmental_filters = none ∧
    (clearAllFilters c).min_price = c.min_price ∧
    (clearAllFilters c).max_price = c.max_price ∧
    (clearAllFilters c).property_types = c.property_types ∧
    (clearAllFilters c).status = c.status ∧
    (clearAllFilters c).min_bedrooms = c.min_bedrooms ∧
    (clearAllFilters c).max_bedrooms = c.max_bedrooms ∧
    (clearAllFilters c).min_bathrooms = c.min_bathrooms ∧
    (clearAllFilters c).center_latitude = c.center_latitude ∧
    (clearAllFilters c).center_longitude = c.center_longitude ∧
    (clearAllFilters c).radius_km = c.radius_km ∧
    (clearAllFilters c).areas = c.areas ∧
    (clearAllFilters c).must_have_garden = c.must_have_garden ∧
    (clearAllFilters c).must_have_parking = c.must_have_parking ∧
    (clearAllFilters c).min_floor_area_sqft = c.min_floor_area_sqft ∧
    (clearAllFilters c).limit = c.limit ∧
    (clearAllFilters c).offset = c.offset ∧
    (clearAllFilters c).sort_by = c.sort_by :=
  ⟨rfl, rfl, rfl, rfl, rfl, rfl, rfl, rfl, rfl, rfl,
   rfl, rfl, rfl, rfl, rfl, rfl, rfl, rfl, rfl, rfl⟩

/-- C10 counterexample: over an arbitrary prior history the claimed
no-duplicates property fails — a history that already contains duplicates
of an unrelated entry keeps them. -/
theorem saveToHistory_nodup_counterexample :
    ¬ (saveToHistory "b" ["a", "a"]).Nodup := by decide

/-- C10 (amended): `saveToHistory` ignores blank queries; for a non-blank
query the result starts with the new query and has at most 10 entries,
and — provided the input history is itself duplicate-free — the result is
duplicate-free. -/
theorem saveToHistory_invariants (q : String) (hist : List String) :
    (strTrim q = "" → saveToHistory q hist = hist) ∧
    (strTrim q ≠ "" →
      (saveToHistory q hist).head? = some q ∧
      (saveToHistory q hist).length ≤ 10 ∧
      (hist.Nodup → (saveToHistory q hist).Nodup)) := by
  constructor
  · intro h
    simp [saveToHistory, h]
  · intro h
    refine ⟨?_, ?_, ?_⟩
    · simp [saveToHistory, h, List.take_succ_cons]
    · unfold saveToHistory
      rw [if_neg h]
      rw [List.length_take]
      exact min_le_left _ _
    · intro hnd
      unfold saveToHistory
      rw [if_neg h]
      have hcons : (q :: hist.filter (fun x => x ≠ q)).Nodup := by
        apply List.nodup_cons.mpr
        refine ⟨?_, hnd.filter _⟩
        intro hmem
        have := (List.mem_filter.mp hmem).2
        simp at this
      exact hcons.sublist (List.take_sublist _ _)

theorem saveToHistory_invariants_witness :
    (saveToHistory "hello" ["a", "b"]).head? = some "hello" ∧
    (saveToHistory "hello" ["a", "b"]).length ≤ 10 ∧
    (saveToHistory "hello" ["a", "b"]).Nodup := by
  have h := (saveToHistory_invariants "hello" ["a", "b"]).2 (by decide)
  exact ⟨h.1, h.2.1, h.2.2 (by decide)⟩

end PerfectMove
